import Mathlib

/-!
Shallow embedding of the data-room backend (Flask/SQLAlchemy sources under
src/backend) used to settle the frozen claims about the natural-language
specification.  Machine state (the relational store, the in-process caches
and the rate-limiter counters) is modelled by explicit state passing; time
is an integer number of seconds; fallible code returns Except/Option.
-/

namespace DataRoom

/-! ### Small helpers shared by several components -/

/-- Boolean substring test on lists (used to embed Python's `kw in s`). -/
def listHasSub [BEq α] (pat : List α) : List α → Bool
  | [] => pat.isEmpty
  | x :: t => pat.isPrefixOf (x :: t) || listHasSub pat t

/-- Python's `pat in s` on strings. -/
def containsSub (s pat : String) : Bool :=
  listHasSub pat.data s.data

/-- Python truthiness of an optional string: `None` and the empty string are
falsy, every other string is truthy. -/
def truthyS : Option String → Bool
  | none => false
  | some s => !(s == "")

/-- Python's `s.lower()` (character-wise lowering, written over the
character list so that it evaluates by reduction). -/
def strLower (s : String) : String :=
  String.mk (s.data.map Char.toLower)

/-- Python's `s.strip()`: drop whitespace from both ends. -/
def strTrim (s : String) : String :=
  String.mk
    (((s.data.dropWhile Char.isWhitespace).reverse.dropWhile Char.isWhitespace).reverse)

/-- Python's `s.rstrip(c)` specialised to one character. -/
def rstripChar (s : String) (c : Char) : String :=
  String.mk (s.data.reverse.dropWhile (· == c)).reverse

/-- An `AppError` raised through `create_error(message, status_code)`
(src/backend/middleware/error_handler.py). -/
structure AppErr where
  message : String
  status_code : Nat
  deriving Repr, DecidableEq

/-- Embedding of `create_error` (src/backend/middleware/error_handler.py). -/
def create_error (message : String) (status_code : Nat) : AppErr :=
  ⟨message, status_code⟩

/-! ### RateLimiter (src/backend/utils/rate_limiter.py)

The module-level dict `_failed_attempts : dict[str, list[float]]` is modelled
as an association list from keys to timestamp lists; timestamps are integers. -/

def MAX_FAILED_ATTEMPTS : Nat := 10

def RATE_LIMIT_WINDOW : Int := 300

def MAX_FALLBACK_ATTEMPTS : Nat := 5

def FALLBACK_WINDOW : Int := 60

/-- State of the in-memory rate limiter: the `_failed_attempts` defaultdict. -/
structure RateLimiterState where
  failed_attempts : List (String × List Int)
  deriving Repr, DecidableEq

/-- Read a key of the defaultdict (missing keys read as the empty list). -/
def RateLimiterState.get (s : RateLimiterState) (k : String) : List Int :=
  match s.failed_attempts.lookup k with
  | some l => l
  | none => []

/-- Write a key of the defaultdict. -/
def RateLimiterState.set (s : RateLimiterState) (k : String) (v : List Int) :
    RateLimiterState :=
  ⟨(k, v) :: s.failed_attempts.filter (fun p => !(p.1 == k))⟩

/-- Embedding of `check_fallback_rate_limit` (rate_limiter.py lines 84-104):
prunes attempts older than the fallback window, then refuses when the pruned
count has reached `MAX_FALLBACK_ATTEMPTS`.  Returns the `(allowed, message)`
pair together with the updated state (the prune mutates the dict in place). -/
def check_fallback_rate_limit (s : RateLimiterState) (identifier : String)
    (now : Int) : (Bool × Option String) × RateLimiterState :=
  let fallback_key := identifier ++ ":fallback"
  let attempts := s.get fallback_key
  let pruned := attempts.filter (fun t => now - t < FALLBACK_WINDOW)
  let s2 := s.set fallback_key pruned
  if MAX_FALLBACK_ATTEMPTS ≤ pruned.length then
    ((false, some "Too many authentication attempts. Please try again later."), s2)
  else
    ((true, none), s2)

/-- Embedding of `record_fallback_attempt` (rate_limiter.py lines 107-116). -/
def record_fallback_attempt (s : RateLimiterState) (identifier : String)
    (now : Int) : RateLimiterState :=
  let fallback_key := identifier ++ ":fallback"
  s.set fallback_key (s.get fallback_key ++ [now])

/-! ### TokenVerifier (src/backend/utils/jwt_verifier.py)

A bearer token is modelled by the observable outcomes of the cryptographic
and parsing steps (whether it parses, whether each candidate secret validates
its signature) together with its decoded claims.  `iss` is `decoded.get('iss','')`,
so an absent issuer claim is the empty string. -/

structure TokenModel where
  /-- the token parses as a JWT (jwt.decode raises no DecodeError) -/
  wellFormed : Bool
  /-- signature valid under `Config.SUPABASE_SERVICE_ROLE_KEY` -/
  sigServiceRole : Bool
  /-- signature valid under `Config.SUPABASE_ANON_KEY` -/
  sigAnon : Bool
  exp : Option Int
  iat : Option Int
  iss : String
  sub : Option String
  email : Option String
  /-- `user_metadata.get('full_name')` -/
  full_name : Option String
  deriving Repr, DecidableEq

/-- Clock-skew leeway passed to `jwt.decode` (60 seconds). -/
def JWT_LEEWAY : Int := 60

/-- Maximum token age accepted by `verify_supabase_jwt` (24 hours). -/
def MAX_TOKEN_AGE : Int := 3600 * 24

/-- Outcome of one `jwt.decode(token, secret, ...)` call. -/
inductive DecodeResult where
  | ok
  | invalidSignature
  | expiredSignature
  | invalidToken
  deriving Repr, DecidableEq

/-- Embedding of `jwt.decode` with `verify_exp`, `verify_iat` and `leeway=60`:
parse, check the signature, then reject an `exp` beyond the leeway.  (`iat`
is an integer in the model, so PyJWT's numeric `iat` validation is vacuous;
the verifier's own age checks below handle future-issued tokens.) -/
def jwtDecode (secretOk : Bool) (t : TokenModel) (now : Int) : DecodeResult :=
  if !t.wellFormed then .invalidToken
  else if !secretOk then .invalidSignature
  else
    match t.exp with
    | some e => if e ≤ now - JWT_LEEWAY then .expiredSignature else .ok
    | none => .ok

/-- Result of local verification: decoded claims, a signature mismatch
(the `ValueError` that triggers the remote fallback), or an `AppError`. -/
inductive LocalVerify where
  | ok (t : TokenModel)
  | sigMismatch
  | rejected (e : AppErr)
  deriving Repr, DecidableEq

/-- Content checks performed after a successful decode
(jwt_verifier.py lines 72-93): issuer (skipped when the claim is falsy),
then maximum token age and future-issued sanity. -/
def verifyPostChecks (supabaseUrl : String) (t : TokenModel) (now : Int) :
    LocalVerify :=
  let expected_issuer := rstripChar supabaseUrl '/'
  if t.iss ≠ "" ∧ t.iss ≠ expected_issuer ∧ t.iss ≠ expected_issuer ++ "/auth/v1" then
    .rejected (create_error "Invalid token issuer" 401)
  else
    match t.iat with
    | some iat =>
      if MAX_TOKEN_AGE < now - iat then .rejected (create_error "Token too old" 401)
      else if now - iat < 0 then .rejected (create_error "Invalid token issue time" 401)
      else .ok t
    | none => .ok t

/-- Embedding of `verify_supabase_jwt` (jwt_verifier.py):  decode under the
service-role secret; on `InvalidSignatureError` retry under the anon secret;
only a second `InvalidSignatureError` becomes the `sigMismatch` signal
(`ValueError` in the source).  `ExpiredSignatureError` from either decode is
surfaced as the 401 "Token expired" `AppError`; other decode failures become
the generic 401.  (The unverified-header `typ` check at lines 32-38 raises
inside a `try` whose handler is `except Exception: pass`, so it has no
effect and is omitted.)  Successful decodes continue with the content checks. -/
def verify_supabase_jwt (supabaseUrl : String) (t : TokenModel) (now : Int) :
    LocalVerify :=
  match jwtDecode t.sigServiceRole t now with
  | .invalidSignature =>
    match jwtDecode t.sigAnon t now with
    | .invalidSignature => .sigMismatch
    | .expiredSignature => .rejected (create_error "Token expired" 401)
    | .invalidToken => .rejected (create_error "Invalid token" 401)
    | .ok => verifyPostChecks supabaseUrl t now
  | .expiredSignature => .rejected (create_error "Token expired" 401)
  | .invalidToken => .rejected (create_error "Invalid token" 401)
  | .ok => verifyPostChecks supabaseUrl t now

/-! ### AuthPipeline, token-verification phase
(src/backend/middleware/auth.py lines 22-92)

The phase consumes the `Authorization` header, runs local verification and,
on a signature mismatch, performs the remote `supabase.auth.get_user` call.
The remote authority is modelled by its observable answer (`none` when the
call raises or returns no user).  The phase reports how many remote calls
it made; note that it takes no rate-limiter state at all, mirroring the
source, which never consults `utils.rate_limiter`. -/

/-- Result of `supabase.auth.get_user(token)` when it yields a user. -/
structure RemoteUser where
  id : String
  email : Option String
  full_name : Option String
  deriving Repr, DecidableEq

/-- The `Authorization` header as the middleware sees it: absent, present
without a second space-separated part (`IndexError` on `split(' ')[1]`), or
carrying a token. -/
inductive AuthHeader where
  | missing
  | malformed
  | bearer (t : TokenModel)
  deriving Repr, DecidableEq

/-- Identity the middleware continues with after verification. -/
structure AuthIdentity where
  supabase_uid : String
  email : Option String
  full_name : Option String
  usedLocalVerification : Bool
  deriving Repr, DecidableEq

/-- Outcome of the verification phase plus the number of remote
`supabase.auth.get_user` calls it performed. -/
structure VerifyPhaseResult where
  outcome : Except AppErr AuthIdentity
  remoteCalls : Nat
  deriving Repr

/-- Embedding of the verification phase of `authenticate_token`
(auth.py lines 27-91).  `Rejected` outcomes of local verification are
re-raised (`except AppError: raise`); `sigMismatch` falls back to exactly
one remote call whose failure is the 401 "Invalid or expired token"; a
local success still requires truthy `sub` and `email` claims. -/
def auth_verify_phase (supabaseUrl : String) (hdr : AuthHeader) (now : Int)
    (remote : Option RemoteUser) : VerifyPhaseResult :=
  match hdr with
  | .missing => ⟨.error (create_error "Access token required" 401), 0⟩
  | .malformed => ⟨.error (create_error "Invalid authorization header format" 401), 0⟩
  | .bearer t =>
    match verify_supabase_jwt supabaseUrl t now with
    | .rejected e => ⟨.error e, 0⟩
    | .sigMismatch =>
      match remote with
      | none => ⟨.error (create_error "Invalid or expired token" 401), 1⟩
      | some ru => ⟨.ok ⟨ru.id, ru.email, ru.full_name, false⟩, 1⟩
    | .ok d =>
      if truthyS d.sub = false then
        ⟨.error (create_error "Token missing user ID" 401), 0⟩
      else if truthyS d.email = false then
        ⟨.error (create_error "Token missing email" 401), 0⟩
      else
        ⟨.ok ⟨d.sub.getD "", d.email, d.full_name, true⟩, 0⟩

/-! ### EntityModel (src/backend/models.py)

Rows carry the columns the claims depend on.  `id` is the primary key of
each table; the store keeps each table as a list of rows. -/

structure UserRow where
  id : String
  email : String
  supabase_uid : Option String
  name : Option String
  deriving Repr, DecidableEq

structure DataRoomRow where
  id : String
  name : String
  user_id : String
  deriving Repr, DecidableEq

structure FolderRow where
  id : String
  name : String
  data_room_id : String
  parent_folder_id : Option String
  user_id : String
  deriving Repr, DecidableEq

structure FileRow where
  id : String
  name : String
  data_room_id : String
  folder_id : Option String
  user_id : String
  file_path : Option String
  deriving Repr, DecidableEq

/-- The relational store (the tables the claims touch). -/
structure Store where
  data_rooms : List DataRoomRow
  folders : List FolderRow
  files : List FileRow
  deriving Repr, DecidableEq

/-- Computed key of the authoritative unique index `idx_folder_unique`
(models.py lines 120-126): `data_room_id || '|' || COALESCE(parent_folder_id,'')
|| '|' || lower(name)`. -/
def folderUniqueKey (f : FolderRow) : String :=
  f.data_room_id ++ "|" ++ f.parent_folder_id.getD "" ++ "|" ++ strLower f.name

/-! ### ConflictChecker (src/backend/utils/conflict_checker.py) -/

/-- The SQLAlchemy filter built in `check_name_conflicts` for folders:
`Folder.name == name, Folder.parent_folder_id == folder_id,
Folder.data_room_id == data_room_id`, plus `Folder.id != exclude_folder_id`
when that argument is truthy.  Note the name comparison is SQL `=` on the
raw column: exact, case-sensitive equality. -/
def folderConflictFilter (name : String) (data_room_id : String)
    (folder_id : Option String) (exclude_folder_id : Option String)
    (f : FolderRow) : Bool :=
  f.name == name && f.parent_folder_id == folder_id &&
    f.data_room_id == data_room_id &&
    (if truthyS exclude_folder_id then !(f.id == exclude_folder_id.getD "") else true)

/-- The corresponding filter for files. -/
def fileConflictFilter (name : String) (data_room_id : String)
    (folder_id : Option String) (exclude_file_id : Option String)
    (f : FileRow) : Bool :=
  f.name == name && f.folder_id == folder_id &&
    f.data_room_id == data_room_id &&
    (if truthyS exclude_file_id then !(f.id == exclude_file_id.getD "") else true)

/-- Result dictionary of `check_name_conflicts`. -/
structure ConflictResult where
  folderConflict : Bool
  fileConflict : Bool
  conflictingFolder : Option FolderRow
  conflictingFile : Option FileRow
  deriving Repr, DecidableEq

/-- Embedding of `check_name_conflicts` (conflict_checker.py lines 10-55):
an EXISTS query per table over the filters above, then a fetch of the first
matching row when one exists. -/
def check_name_conflicts (st : Store) (name : String) (data_room_id : String)
    (folder_id : Option String) (exclude_file_id : Option String)
    (exclude_folder_id : Option String) : ConflictResult :=
  let folder_exists :=
    st.folders.any (folderConflictFilter name data_room_id folder_id exclude_folder_id)
  let file_exists :=
    st.files.any (fileConflictFilter name data_room_id folder_id exclude_file_id)
  let conflicting_folder :=
    if folder_exists then
      st.folders.find? (folderConflictFilter name data_room_id folder_id exclude_folder_id)
    else none
  let conflicting_file :=
    if file_exists then
      st.files.find? (fileConflictFilter name data_room_id folder_id exclude_file_id)
    else none
  ⟨conflicting_folder.isSome, conflicting_file.isSome,
    conflicting_folder, conflicting_file⟩

/-! ### FolderTreeOps (src/backend/routes/folder_routes.py) -/

/-- Lookup used by several routes: `Folder.query.join(DataRoom).filter(
Folder.id == id, DataRoom.user_id == g.user.id).first()`. -/
def ownedFolder (st : Store) (userId : String) (id : String) : Option FolderRow :=
  st.folders.find? (fun f =>
    f.id == id && st.data_rooms.any (fun dr =>
      dr.id == f.data_room_id && dr.user_id == userId))

/-- Update of a folder row's `parent_folder_id` column (the ORM mutation
`folder.parent_folder_id = new_parent_id` followed by commit; `id` is the
primary key). -/
def setParentFolder (st : Store) (id : String) (p : Option String) : Store :=
  ⟨st.data_rooms,
    st.folders.map (fun f => if f.id == id then { f with parent_folder_id := p } else f),
    st.files⟩

/-- Embedding of the `move_folder` route (folder_routes.py lines 442-478):
resolve the folder through the ownership join, validate a truthy
`newParentId` against folders of the same data room, then commit the new
parent.  Errors leave the store unchanged. -/
def move_folder (st : Store) (userId : String) (id : String)
    (newParentId : Option String) : Except AppErr Store :=
  match ownedFolder st userId id with
  | none => .error (create_error "Folder not found" 404)
  | some folder =>
    if truthyS newParentId then
      match st.folders.find? (fun f =>
          f.id == newParentId.getD "" && f.data_room_id == folder.data_room_id) with
      | none => .error (create_error "New parent folder not found" 404)
      | some _ => .ok (setParentFolder st id newParentId)
    else .ok (setParentFolder st id newParentId)

/-- One breadcrumb entry produced by `build_breadcrumb`. -/
structure Crumb where
  id : String
  name : String
  parentId : Option String
  deriving Repr, DecidableEq

/-- Point lookup `Folder.query.filter_by(id=folder_id).first()`. -/
def findFolder (st : Store) (id : String) : Option FolderRow :=
  st.folders.find? (fun f => f.id == id)

/-- Embedding of the `while current:` loop inside `build_breadcrumb`
(folder_routes.py lines 217-232), instrumented with fuel: `some crumbs`
means the loop finished within the given number of iterations, `none`
means it was still running when the fuel ran out.  The source has no
depth cap, so its termination is exactly `∃ fuel, result = some _`. -/
def build_breadcrumb_loop : Nat → Store → Option FolderRow → List Crumb →
    Option (List Crumb)
  | _, _, none, breadcrumb => some breadcrumb
  | 0, _, some _, _ => none
  | Nat.succ n, st, some current, breadcrumb =>
    let breadcrumb2 : List Crumb :=
      ⟨current.id, current.name, current.parent_folder_id⟩ :: breadcrumb
    match current.parent_folder_id with
    | some pid => build_breadcrumb_loop n st (findFolder st pid) breadcrumb2
    | none => some breadcrumb2

/-- Embedding of `build_breadcrumb(folder_id)` with the loop above. -/
def build_breadcrumb (st : Store) (folder_id : String) (fuel : Nat) :
    Option (List Crumb) :=
  build_breadcrumb_loop fuel st (findFolder st folder_id) []

/-! ### Data-room deletion endpoint
(src/backend/routes/data_room_routes.py lines 252-256) -/

/-- Embedding of `delete_data_room`: the handler body is a single
unconditional `raise create_error(...)` before any store access. -/
def delete_data_room (st : Store) (userId : String) (id : String) :
    Except AppErr Store :=
  .error (create_error
    "Cannot delete Data Room. Every user must have at least one Data Room." 403)

/-! ### Global error handler, IntegrityError branch
(src/backend/middleware/error_handler.py lines 39-74)

Given the stringified database error (`str(error.orig)`), the handler picks
a status code and a domain message.  Substring tests on the lowered string
embed Python's `kw in error_str.lower()`; the constraint-name tests run on
the raw string, as in the source. -/

def error_handler_integrity (error_str : String) : Nat × String :=
  let lower := strLower error_str
  if containsSub lower "foreign key" || containsSub lower "violates foreign key constraint" then
    (400,
      if containsSub lower "parent_folder_id" || containsSub lower "folders_parent_folder_id" then
        "Parent folder not found or does not belong to this data room."
      else if containsSub lower "data_room_id" || containsSub lower "folders_data_room_id" then
        "Data room not found."
      else if containsSub lower "folder_id" || containsSub lower "files_folder_id" then
        "Folder not found or does not belong to this data room."
      else
        "Invalid reference. Please check your input and try again.")
  else if containsSub lower "unique" || containsSub lower "duplicate" then
    (409,
      if containsSub error_str "uq_data_room_user_name" || containsSub error_str "idx_data_room_user_name" then
        "A data room with this name already exists. Please choose a different name."
      else if containsSub error_str "uq_folder_parent_name" || containsSub error_str "idx_folder_unique" then
        "A folder with this name already exists in this location. Please choose a different name."
      else if containsSub error_str "uq_file_folder_name" || containsSub error_str "idx_file_unique" then
        "A file with this name already exists in this location. Please choose a different name."
      else if containsSub error_str "users_email_key" || containsSub lower "email" then
        "An account with this email already exists."
      else if containsSub error_str "google_drive_tokens_user_id_key" then
        "Google Drive token already exists for this user."
      else
        "A record with this name already exists. Please choose a different name.")
  else
    (400, "Invalid data provided. Please check your input and try again.")

/-! ### Folder creation route (folder_routes.py lines 253-383)

The route validates the body, checks data-room ownership with an EXISTS
query, then inserts and commits; it performs no pre-flight name check and
relies on the storage layer's `idx_folder_unique` index, re-raising the
`IntegrityError` for the global error handler to translate. -/

/-- Insert against the storage layer: a row whose `idx_folder_unique` key
collides with an existing row raises the PostgreSQL duplicate-key
`IntegrityError`; otherwise the row is appended.  (Foreign-key checking is
not modelled; the claims settled here only exercise inserts whose parent
scope is already inhabited or the data-room root.) -/
def insertFolder (st : Store) (row : FolderRow) : Except String Store :=
  if st.folders.any (fun f => folderUniqueKey f == folderUniqueKey row) then
    .error "duplicate key value violates unique constraint \"idx_folder_unique\""
  else
    .ok ⟨st.data_rooms, st.folders ++ [row], st.files⟩

/-- HTTP-level outcome of the folder-creation route. -/
inductive CreateFolderResult where
  /-- 201 with the created row; the store now holds the row -/
  | created (st : Store) (row : FolderRow)
  /-- 400 with the marshmallow `errors` payload -/
  | validationFailed
  /-- a `create_error` raise (404 for a foreign data room) -/
  | httpError (e : AppErr)
  /-- an `IntegrityError` re-raised and rendered by `error_handler` -/
  | handled (status : Nat) (message : String)
  deriving Repr, DecidableEq

/-- Embedding of the `create_folder` route composed with the global error
handler: schema validation (`1 <= len(name) <= 100`), the EXISTS ownership
check (404 "Data room not found" on failure), then the insert; a
duplicate-key `IntegrityError` is rolled back, re-raised and translated by
`error_handler_integrity`.  `newId` stands for the generated UUID primary
key. -/
def create_folder (st : Store) (userId : String) (name : String)
    (parentId : Option String) (dataRoomId : String) (newId : String) :
    CreateFolderResult :=
  if 1 ≤ name.length ∧ name.length ≤ 100 then
    if st.data_rooms.any (fun dr => dr.id == dataRoomId && dr.user_id == userId) then
      match insertFolder st ⟨newId, name, dataRoomId, parentId, userId⟩ with
      | .ok st2 => .created st2 ⟨newId, name, dataRoomId, parentId, userId⟩
      | .error e => .handled (error_handler_integrity e).1 (error_handler_integrity e).2
    else .httpError (create_error "Data room not found" 404)
  else .validationFailed

/-! ### AuthPipeline, user lookup-or-create phase
(src/backend/middleware/auth.py lines 94-217)

The `for attempt in range(max_retries)` loop is embedded over a list of
per-attempt environments describing what the cache and the store answer on
that attempt, and whether each commit raises.  `IntegrityError` is a
subclass of SQLAlchemy's `DatabaseError`, so both error kinds land in the
same `except (OperationalError, DatabaseError)` handler. -/

/-- A database error caught by the retry loop's handler. -/
inductive DbErr where
  | integrityError (msg : String)
  | operationalError (msg : String)
  deriving Repr, DecidableEq

/-- The `str(e)` the handler inspects. -/
def DbErr.msg : DbErr → String
  | .integrityError m => m
  | .operationalError m => m

/-- The retry-keyword test (auth.py lines 193-196). -/
def is_retryable_db_error (error_str : String) : Bool :=
  let s := strLower error_str
  containsSub s "timeout" || containsSub s "connection" ||
    containsSub s "maxclients" || containsSub s "server closed"

/-- What the cache and store answer during one attempt of the loop body. -/
structure AttemptEnv where
  /-- `get_user_id_from_cache(supabase_uid)` -/
  cached_user_id : Option String
  /-- `User.query.get(cached_user_id)` (only consulted on a cache hit) -/
  user_by_cached_id : Option UserRow
  /-- `User.query.filter_by(supabase_uid=...).first()` -/
  user_by_uid : Option UserRow
  /-- `User.query.filter_by(email=...).first()` -/
  user_by_email : Option UserRow
  /-- error raised by the commit that backfills `supabase_uid`, if any -/
  backfill_commit : Option DbErr
  /-- error raised by the commit of the new User plus DataRoom, if any -/
  create_commit : Option DbErr
  /-- generated primary key for a newly created user -/
  new_user_id : String
  deriving Repr, DecidableEq

/-- Python `email.split('@')[0]`. -/
def emailLocalPart (email : String) : String :=
  String.mk (email.data.takeWhile (fun c => !(c == '@')))

/-- Embedding of `re.sub(r'\s*\([^)]*\)\s*$', '', name)`: drop one trailing
parenthesised group (with its surrounding whitespace) when present. -/
def removeParenSuffix (s : String) : String :=
  let rs := s.data.reverse.dropWhile Char.isWhitespace
  match rs with
  | ')' :: rest =>
    let inner := rest.dropWhile (fun c => !(c == '(') && !(c == ')'))
    match inner with
    | '(' :: before => String.mk before.reverse
    | _ => s
  | _ => s

/-- Display-name derivation for a new user (auth.py lines 139-145):
`user_metadata.get('full_name')` when truthy, else the email local part;
then the trailing parenthetical is stripped and the result trimmed. -/
def derive_user_name (metaName : Option String) (email : String) : String :=
  let base := if truthyS metaName then metaName.getD "" else emailLocalPart email
  strTrim (removeParenSuffix base)

/-- Result of one pass through the loop body. -/
inductive AttemptResult where
  | authed (u : UserRow) (fromCache : Bool)
  | dbError (e : DbErr)
  deriving Repr, DecidableEq

/-- The cache-miss part of the loop body (auth.py lines 126-166): indexed
lookup by subject, email fallback with subject backfill, then lazy creation
of the user together with its default data room in one transaction. -/
def attemptLookupOrCreate (supabase_uid : String) (email : String)
    (metaName : Option String) (env : AttemptEnv) : AttemptResult :=
  match env.user_by_uid with
  | some u => .authed u false
  | none =>
    match env.user_by_email with
    | some u =>
      if truthyS u.supabase_uid = false then
        match env.backfill_commit with
        | some e => .dbError e
        | none => .authed ⟨u.id, u.email, some supabase_uid, u.name⟩ false
      else .authed u false
    | none =>
      match env.create_commit with
      | some e => .dbError e
      | none =>
        .authed ⟨env.new_user_id, email, some supabase_uid,
          some (derive_user_name metaName email)⟩ false

/-- One full pass through the loop body (auth.py lines 100-186): the cache
fast path first, falling through to the lookup-or-create path when the
cache misses or the cached user's subject no longer matches. -/
def attemptBody (supabase_uid : String) (email : String)
    (metaName : Option String) (env : AttemptEnv) : AttemptResult :=
  if truthyS env.cached_user_id then
    match env.user_by_cached_id with
    | some u =>
      if u.supabase_uid == some supabase_uid then .authed u true
      else attemptLookupOrCreate supabase_uid email metaName env
    | none => attemptLookupOrCreate supabase_uid email metaName env
  else attemptLookupOrCreate supabase_uid email metaName env

/-- `max_retries` (auth.py line 96). -/
def max_retries : Nat := 3

/-- Embedding of the retry loop (auth.py lines 99-217): a database error is
retried only when `is_retryable_db_error` accepts its message and attempts
remain (`attempt < max_retries - 1`); otherwise the loop raises the 503
"Database connection error" `AppError`.  The environment list supplies one
entry per attempt. -/
def authDbLoop (supabase_uid : String) (email : String)
    (metaName : Option String) : List AttemptEnv → Nat → Except AppErr UserRow
  | [], _ => .error (create_error "Authentication error" 500)
  | env :: rest, attempt =>
    match attemptBody supabase_uid email metaName env with
    | .authed u _ => .ok u
    | .dbError e =>
      if is_retryable_db_error e.msg && decide (attempt < max_retries - 1) then
        authDbLoop supabase_uid email metaName rest (attempt + 1)
      else
        .error (create_error "Database connection error. Please try again later." 503)

/-- The user-resolution phase of `authenticate_token`, started at attempt 0. -/
def authenticate_db (supabase_uid : String) (email : String)
    (metaName : Option String) (envs : List AttemptEnv) : Except AppErr UserRow :=
  authDbLoop supabase_uid email metaName envs 0

/-! ### Recursive folder deletion (folder_routes.py lines 480-537)

`delete_folder_recursive` recurses over child folders first, then deletes
the files directly inside the folder (attempting a best-effort storage
delete for each file that has a `file_path`; a storage failure is caught,
logged and ignored), then deletes the folder row.  Python's unbounded
recursion is embedded with fuel; `blobOk` tells which storage deletions
succeed, and the effects record the attempted calls and the logged
failures. -/

/-- `Folder.query.filter_by(parent_folder_id=folder_id).all()`. -/
def childRows (st : Store) (folder_id : String) : List FolderRow :=
  st.folders.filter (fun f => f.parent_folder_id == some folder_id)

/-- Blob-delete calls attempted for a list of files: one per file with a
truthy `file_path` (`if file.file_path:`), in list order. -/
def filePaths (fs : List FileRow) : List String :=
  (fs.filter (fun f => truthyS f.file_path)).map (fun f => f.file_path.getD "")

/-- Store state plus the observable storage side effects of a deletion. -/
structure DeleteEffects where
  store : Store
  blob_calls : List String
  blob_failures : List String
  deriving Repr, DecidableEq

/-- The `for child_folder in child_folders:` loop, abstracted over the
recursive call. -/
def runChildren (go : Store → String → DeleteEffects) :
    Store → List FolderRow → DeleteEffects
  | st, [] => ⟨st, [], []⟩
  | st, c :: cs =>
    let r := go st c.id
    let r2 := runChildren go r.store cs
    ⟨r2.store, r.blob_calls ++ r2.blob_calls, r.blob_failures ++ r2.blob_failures⟩

/-- Embedding of `delete_folder_recursive(folder_id)`: children first (each
recursively), then this folder's files (issuing one blob-delete call per
file with a path, recording but swallowing failures), then the folder row
itself (`id` is the primary key). -/
def delete_folder_recursive (blobOk : String → Bool) :
    Nat → Store → String → DeleteEffects
  | 0, st, _ => ⟨st, [], []⟩
  | Nat.succ fuel, st, folder_id =>
    let a := runChildren (delete_folder_recursive blobOk fuel) st (childRows st folder_id)
    let files := a.store.files.filter (fun f => f.folder_id == some folder_id)
    let calls := filePaths files
    let fails := calls.filter (fun p => !(blobOk p))
    ⟨⟨a.store.data_rooms,
      a.store.folders.filter (fun f => !(f.id == folder_id)),
      a.store.files.filter (fun f => !(f.folder_id == some folder_id))⟩,
      a.blob_calls ++ calls, a.blob_failures ++ fails⟩

/-- Embedding of the `delete_folder` route (folder_routes.py lines 509-537):
ownership join, then the recursive deletion followed by a single
`db.session.commit()`; the resulting store is published atomically.  The
route result carries the blob-delete calls that were scheduled. -/
def delete_folder (blobOk : String → Bool) (st : Store) (userId : String)
    (id : String) (fuel : Nat) : Except AppErr Store × List String :=
  match ownedFolder st userId id with
  | none => (.error (create_error "Folder not found" 404), [])
  | some _ =>
    let r := delete_folder_recursive blobOk fuel st id
    (.ok r.store, r.blob_calls)

/-! ### Folder forests

The cascade-deletion claim speaks of "a folder containing N nested
subfolders and M files (across all levels)"; that shape is formalised by a
first-order forest structure: `grow row files children rest` is the forest
whose first tree has root `row` with the files directly inside it and the
child forest `children`, followed by the sibling forest `rest`. -/

inductive FolderForest where
  | nil
  | grow (row : FolderRow) (files : List FileRow) (children : FolderForest)
      (rest : FolderForest)
  deriving Repr, DecidableEq

/-- Folder rows of a forest (each root before its subtree, in order). -/
def forestFolderRows : FolderForest → List FolderRow
  | .nil => []
  | .grow r _ children rest =>
    r :: (forestFolderRows children ++ forestFolderRows rest)

/-- File rows of a forest. -/
def forestFileRows : FolderForest → List FileRow
  | .nil => []
  | .grow _ fs children rest =>
    fs ++ (forestFileRows children ++ forestFileRows rest)

/-- Folder ids of a forest. -/
def forestIds (F : FolderForest) : List String :=
  (forestFolderRows F).map (fun f => f.id)

/-- Root rows of the trees of a forest, in order. -/
def forestRoots : FolderForest → List FolderRow
  | .nil => []
  | .grow r _ _ rest => r :: forestRoots rest

/-- Blob-delete calls expected for a forest in the source's depth-first
order: for each tree, first its whole child forest, then the root's own
files with a path; siblings in order. -/
def forestPostPaths : FolderForest → List String
  | .nil => []
  | .grow _ fs children rest =>
    (forestPostPaths children ++ filePaths fs) ++ forestPostPaths rest

/-- Height of a forest (deepest nesting level). -/
def forestHeight : FolderForest → Nat
  | .nil => 0
  | .grow _ _ children rest => max (forestHeight children + 1) (forestHeight rest)

/-- Coherence of a forest stored under the parent folder `pid`: every root
references `pid`, every file references the folder it sits in, and every
child forest is coherent under its root. -/
def forestCoherentB (pid : String) : FolderForest → Bool
  | .nil => true
  | .grow r fs children rest =>
    (r.parent_folder_id == some pid) &&
    fs.all (fun f => f.folder_id == some r.id) &&
    forestCoherentB r.id children &&
    forestCoherentB pid rest

/-! ### Concrete instances used by witnesses and counterexamples -/

/-- Token that fails signature verification under both secrets. -/
def sigMismatchTok : TokenModel :=
  ⟨true, false, false, some 99999999, some 0, "", some "sub-123", some "user@x.com", none⟩

/-- Rate-limiter state of a client that already made `MAX_FALLBACK_ATTEMPTS`
fallback attempts inside the current fallback window (at time 150). -/
def overLimitState : RateLimiterState :=
  ⟨[("1.2.3.4:fallback", [100, 110, 120, 130, 140])]⟩

/-- Store with one data room owned by "u" holding a single root folder. -/
def oneFolderStore : Store :=
  ⟨[⟨"d", "Room", "u"⟩], [⟨"a", "A", "d", none, "u"⟩], []⟩

/-- Store where folder "b" is a child of folder "a". -/
def parentChildStore : Store :=
  ⟨[⟨"d", "Room", "u"⟩],
    [⟨"a", "A", "d", none, "u"⟩, ⟨"b", "B", "d", some "a", "u"⟩], []⟩

/-- Corrupt store whose two folder rows are each other's parent. -/
def cycStore : Store :=
  ⟨[], [⟨"a", "A", "d", some "b", "u"⟩, ⟨"b", "B", "d", some "a", "u"⟩], []⟩

/-- First folder row of `cycStore`. -/
def cycRowA : FolderRow := ⟨"a", "A", "d", some "b", "u"⟩

/-- Second folder row of `cycStore`. -/
def cycRowB : FolderRow := ⟨"b", "B", "d", some "a", "u"⟩

/-- Attempt environment of a racing first request: every read misses and the
create commit hits the storage uniqueness backstop. -/
def dupKeyEnv : AttemptEnv :=
  ⟨none, none, none, none, none,
    some (.integrityError "duplicate key value violates unique constraint \"users_email_key\""),
    "u-new"⟩

/-- User row the concurrent winner created. -/
def existingUserRow : UserRow := ⟨"u1", "user@x.com", some "sub-123", some "Pat"⟩

/-- Attempt environment in which a repeated read would find the winner's row. -/
def retryReadEnv : AttemptEnv :=
  ⟨none, none, some existingUserRow, none, none, none, "u-unused"⟩

/-- Locally-valid but expired token (at time 1000). -/
def expiredTok : TokenModel :=
  ⟨true, true, false, some 100, some 100, "", some "sub-123", some "user@x.com", none⟩

/-- Locally-valid, fresh token carrying no issuer claim. -/
def noIssuerTok : TokenModel :=
  ⟨true, true, false, some 2000, some 900, "", some "sub-123", some "user@x.com", none⟩

/-- Locally-valid, fresh token asserting a foreign issuer. -/
def badIssuerTok : TokenModel :=
  ⟨true, true, false, some 2000, some 900, "https://evil.example", some "sub-123",
    some "user@x.com", none⟩

/-- Store holding data room "d" of user "u" with a root folder "Reports". -/
def reportsStore : Store :=
  ⟨[⟨"d", "Room", "u"⟩], [⟨"f1", "Reports", "d", none, "u"⟩], []⟩

/-- Store holding data room "d" of user "u" with a root folder "Budget". -/
def budgetStore : Store :=
  ⟨[⟨"d", "Room", "u"⟩], [⟨"f1", "Budget", "d", none, "u"⟩], []⟩

/-- Store in which folder "a" directly contains one file with no stored
blob path (`file_path` is NULL). -/
def noPathStore : Store :=
  ⟨[⟨"d", "Room", "u"⟩], [⟨"a", "A", "d", none, "u"⟩],
    [⟨"x", "notes.txt", "d", some "a", "u", none⟩]⟩

/-- Root row of the concrete deletion example. -/
def demoRoot : FolderRow := ⟨"a", "A", "d", none, "u"⟩

/-- Files directly inside the example root. -/
def demoFiles : List FileRow :=
  [⟨"x", "f.txt", "d", some "a", "u", some "uploads/a/f.txt"⟩]

/-- Child forest of the example root: one subfolder "b" holding one file
with a stored path and one file without. -/
def demoChildren : FolderForest :=
  .grow ⟨"b", "B", "d", some "a", "u"⟩
    [⟨"y", "g.txt", "d", some "b", "u", some "uploads/b/g.txt"⟩,
     ⟨"z", "h.txt", "d", some "b", "u", none⟩]
    .nil .nil

/-! ## Theorems settling the claims -/

/-- Helper: the guarded fetch of the first match is inhabited exactly when
the EXISTS query succeeded. -/
theorem isSome_if_any (l : List α) (p : α → Bool) :
    (if l.any p then l.find? p else none).isSome = l.any p := by
  by_cases h : l.any p = true
  · rw [if_pos h, h]
    cases hf : l.find? p with
    | some x => rfl
    | none =>
      rcases List.any_eq_true.mp h with ⟨x, hx, hpx⟩
      exact absurd hpx (by simpa using List.find?_eq_none.mp hf x hx)
  · have h0 : l.any p = false := by simpa using h
    rw [if_neg (by simp [h0]), h0]
    rfl

/-- Helper: the folder filter of `check_name_conflicts` holds exactly for an
identically-named sibling of the same scope that is not the excluded id. -/
theorem folderConflictFilter_eq_true (name data_room_id : String)
    (folder_id exclude_folder_id : Option String) (f : FolderRow) :
    folderConflictFilter name data_room_id folder_id exclude_folder_id f = true ↔
      (f.name = name ∧ f.parent_folder_id = folder_id ∧
        f.data_room_id = data_room_id ∧
        (truthyS exclude_folder_id = true → f.id ≠ exclude_folder_id.getD "")) := by
  unfold folderConflictFilter
  by_cases htr : truthyS exclude_folder_id = true
  · simp [htr, and_assoc]
  · simp [htr, and_assoc]

/-- Helper: the file filter of `check_name_conflicts`, likewise. -/
theorem fileConflictFilter_eq_true (name data_room_id : String)
    (folder_id exclude_file_id : Option String) (f : FileRow) :
    fileConflictFilter name data_room_id folder_id exclude_file_id f = true ↔
      (f.name = name ∧ f.folder_id = folder_id ∧
        f.data_room_id = data_room_id ∧
        (truthyS exclude_file_id = true → f.id ≠ exclude_file_id.getD "")) := by
  unfold fileConflictFilter
  by_cases htr : truthyS exclude_file_id = true
  · simp [htr, and_assoc]
  · simp [htr, and_assoc]

/-- Helper: the local verifier returns either the post-decode content checks,
the signature-mismatch signal, or one of the two fixed decode errors. -/
theorem verify_supabase_jwt_cases (url : String) (t : TokenModel) (now : Int) :
    verify_supabase_jwt url t now = verifyPostChecks url t now ∨
    verify_supabase_jwt url t now = .sigMismatch ∨
    verify_supabase_jwt url t now = .rejected (create_error "Token expired" 401) ∨
    verify_supabase_jwt url t now = .rejected (create_error "Invalid token" 401) := by
  unfold verify_supabase_jwt
  cases hd1 : jwtDecode t.sigServiceRole t now with
  | ok => exact Or.inl rfl
  | expiredSignature => exact Or.inr (Or.inr (Or.inl rfl))
  | invalidToken => exact Or.inr (Or.inr (Or.inr rfl))
  | invalidSignature =>
    cases hd2 : jwtDecode t.sigAnon t now with
    | ok => exact Or.inl rfl
    | expiredSignature => exact Or.inr (Or.inr (Or.inl rfl))
    | invalidToken => exact Or.inr (Or.inr (Or.inr rfl))
    | invalidSignature => exact Or.inr (Or.inl rfl)

/-- Claim C4: a token whose signature validates locally (under either
secret) but whose expiry claim lies beyond the clock-skew leeway is
rejected by the local verifier with the 401 "Token expired" error, and the
pipeline surfaces that error with zero remote verification calls — expiry
is a content-level rejection, not a `SignatureMismatch`. -/
theorem expired_token_rejected_without_remote
    (url : String) (t : TokenModel) (now e : Int) (remote : Option RemoteUser)
    (hwf : t.wellFormed = true)
    (hsig : t.sigServiceRole = true ∨ t.sigAnon = true)
    (hexp : t.exp = some e) (hlate : e ≤ now - JWT_LEEWAY) :
    verify_supabase_jwt url t now = .rejected (create_error "Token expired" 401) ∧
    auth_verify_phase url (.bearer t) now remote =
      ⟨.error (create_error "Token expired" 401), 0⟩ := by
  have hver : verify_supabase_jwt url t now =
      .rejected (create_error "Token expired" 401) := by
    by_cases hsr : t.sigServiceRole = true
    · have hd : jwtDecode t.sigServiceRole t now = .expiredSignature := by
        simp [jwtDecode, hwf, hsr, hexp, hlate]
      simp [verify_supabase_jwt, hd]
    · have hsa : t.sigAnon = true := by
        rcases hsig with h | h
        · exact absurd h hsr
        · exact h
      have hsr0 : t.sigServiceRole = false := by
        cases hb : t.sigServiceRole
        · rfl
        · exact absurd hb hsr
      have hd1 : jwtDecode t.sigServiceRole t now = .invalidSignature := by
        simp [jwtDecode, hwf, hsr0]
      have hd2 : jwtDecode t.sigAnon t now = .expiredSignature := by
        simp [jwtDecode, hwf, hsa, hexp, hlate]
      simp [verify_supabase_jwt, hd1, hd2]
  refine ⟨hver, ?_⟩
  simp [auth_verify_phase, hver]

/-- Witness for claim C4 at a concrete expired token and time 1000. -/
theorem expired_token_rejected_without_remote_witness :
    verify_supabase_jwt "https://x.supabase.co" expiredTok 1000 =
      .rejected (create_error "Token expired" 401) ∧
    auth_verify_phase "https://x.supabase.co" (.bearer expiredTok) 1000 none =
      ⟨.error (create_error "Token expired" 401), 0⟩ :=
  expired_token_rejected_without_remote "https://x.supabase.co" expiredTok 1000 100
    none rfl (Or.inl rfl) rfl (by decide)

/-- Claim C9: issuer validation is skipped entirely when the issuer claim is
absent or empty: (1) no token with an empty `iss` is ever rejected for its
issuer; (2) a locally-valid, unexpired, age-sane token with an empty `iss`
verifies successfully; (3) only tokens asserting a non-empty issuer are
required to match the expected authority or its `/auth/v1`-suffixed
variant, and are rejected with 401 "Invalid token issuer" otherwise. -/
theorem issuer_check_skipped_when_claim_absent :
    (∀ url t now, t.iss = "" →
      verify_supabase_jwt url t now ≠ .rejected (create_error "Invalid token issuer" 401)) ∧
    (∀ url t now, t.wellFormed = true → t.sigServiceRole = true → t.iss = "" →
      (∀ e, t.exp = some e → now - JWT_LEEWAY < e) →
      (∀ i, t.iat = some i → 0 ≤ now - i ∧ now - i ≤ MAX_TOKEN_AGE) →
      verify_supabase_jwt url t now = .ok t) ∧
    (∀ url t now, t.wellFormed = true → t.sigServiceRole = true →
      (∀ e, t.exp = some e → now - JWT_LEEWAY < e) →
      t.iss ≠ "" → t.iss ≠ rstripChar url '/' →
      t.iss ≠ rstripChar url '/' ++ "/auth/v1" →
      verify_supabase_jwt url t now = .rejected (create_error "Invalid token issuer" 401)) := by
  refine ⟨?_, ?_, ?_⟩
  · intro url t now hiss h
    have hpost : verifyPostChecks url t now ≠
        .rejected (create_error "Invalid token issuer" 401) := by
      unfold verifyPostChecks
      rw [if_neg (fun hc => hc.1 hiss)]
      cases hiat : t.iat with
      | none => intro hc; exact LocalVerify.noConfusion hc
      | some i =>
        show (if MAX_TOKEN_AGE < now - i then
            LocalVerify.rejected (create_error "Token too old" 401)
          else if now - i < 0 then
            LocalVerify.rejected (create_error "Invalid token issue time" 401)
          else LocalVerify.ok t) ≠
          LocalVerify.rejected (create_error "Invalid token issuer" 401)
        by_cases h1 : MAX_TOKEN_AGE < now - i
        · rw [if_pos h1]; intro hc; exact absurd hc (by decide)
        · rw [if_neg h1]
          by_cases h2 : now - i < 0
          · rw [if_pos h2]; intro hc; exact absurd hc (by decide)
          · rw [if_neg h2]; intro hc; exact LocalVerify.noConfusion hc
    rcases verify_supabase_jwt_cases url t now with hc | hc | hc | hc
    · exact hpost (hc ▸ h)
    · rw [hc] at h; exact LocalVerify.noConfusion h
    · rw [hc] at h; exact absurd h (by decide)
    · rw [hc] at h; exact absurd h (by decide)
  · intro url t now hwf hsr hiss hexp hiat
    have hd : jwtDecode t.sigServiceRole t now = .ok := by
      cases he : t.exp with
      | none => simp [jwtDecode, hwf, hsr, he]
      | some e =>
        have hlt : ¬ (e ≤ now - JWT_LEEWAY) := not_le.mpr (hexp e he)
        simp [jwtDecode, hwf, hsr, he, hlt]
    have hv : verify_supabase_jwt url t now = verifyPostChecks url t now := by
      simp [verify_supabase_jwt, hd]
    rw [hv]
    unfold verifyPostChecks
    rw [if_neg (fun hc => hc.1 hiss)]
    cases hi : t.iat with
    | none => rfl
    | some i =>
      obtain ⟨h0, h1⟩ := hiat i hi
      show (if MAX_TOKEN_AGE < now - i then
          LocalVerify.rejected (create_error "Token too old" 401)
        else if now - i < 0 then
          LocalVerify.rejected (create_error "Invalid token issue time" 401)
        else LocalVerify.ok t) = LocalVerify.ok t
      rw [if_neg (not_lt.mpr h1), if_neg (not_lt.mpr h0)]
  · intro url t now hwf hsr hexp hne h1 h2
    have hd : jwtDecode t.sigServiceRole t now = .ok := by
      cases he : t.exp with
      | none => simp [jwtDecode, hwf, hsr, he]
      | some e =>
        have hlt : ¬ (e ≤ now - JWT_LEEWAY) := not_le.mpr (hexp e he)
        simp [jwtDecode, hwf, hsr, he, hlt]
    have hv : verify_supabase_jwt url t now = verifyPostChecks url t now := by
      simp [verify_supabase_jwt, hd]
    rw [hv]
    unfold verifyPostChecks
    rw [if_pos ⟨hne, h1, h2⟩]

/-- Witness for claim C9: a concrete issuerless token verifies, a concrete
foreign-issuer token is rejected for its issuer. -/
theorem issuer_check_skipped_when_claim_absent_witness :
    verify_supabase_jwt "https://x.supabase.co" noIssuerTok 1000 = .ok noIssuerTok ∧
    verify_supabase_jwt "https://x.supabase.co" badIssuerTok 1000 =
      .rejected (create_error "Invalid token issuer" 401) :=
  ⟨issuer_check_skipped_when_claim_absent.2.1 "https://x.supabase.co" noIssuerTok 1000
      rfl rfl rfl
      (by intro e he; injection he with h; rw [← h]; decide)
      (by intro i hi; injection hi with h; rw [← h]; decide),
    issuer_check_skipped_when_claim_absent.2.2 "https://x.supabase.co" badIssuerTok 1000
      rfl rfl
      (by intro e he; injection he with h; rw [← h]; decide)
      (by decide) (by decide) (by decide)⟩

/-- Claim C5 (counterexample): the pre-flight check does not match names
case-insensitively: with an existing sibling "Reports" in the same
(data room, root) scope, a check for "reports" reports no folder conflict,
although the two names agree up to letter case (and the exact-case check
does report one). -/
theorem conflict_check_misses_case_variant :
    (check_name_conflicts reportsStore "reports" "d" none none none).folderConflict
      = false ∧
    strLower "reports" = strLower "Reports" ∧
    (check_name_conflicts reportsStore "Reports" "d" none none none).folderConflict
      = true := by
  refine ⟨by decide, by decide, by decide⟩

/-- Claim C5 (amended): the ConflictChecker's pre-flight existence check
matches names exactly (case-sensitively) within the exact
(DataRoom, parent-or-folder) scope, optionally excluding a given id: it
reports a folder (resp. file) conflict precisely when an existing sibling
folder (resp. file) of that scope carries the identical name and is not
the excluded row.  Case-insensitive uniqueness is enforced only by the
storage layer's lowercased unique index. -/
theorem conflict_check_exact_scope (st : Store) (name data_room_id : String)
    (folder_id exclude_file_id exclude_folder_id : Option String) :
    ((check_name_conflicts st name data_room_id folder_id exclude_file_id
        exclude_folder_id).folderConflict = true ↔
      ∃ f ∈ st.folders, f.name = name ∧ f.parent_folder_id = folder_id ∧
        f.data_room_id = data_room_id ∧
        (truthyS exclude_folder_id = true → f.id ≠ exclude_folder_id.getD "")) ∧
    ((check_name_conflicts st name data_room_id folder_id exclude_file_id
        exclude_folder_id).fileConflict = true ↔
      ∃ f ∈ st.files, f.name = name ∧ f.folder_id = folder_id ∧
        f.data_room_id = data_room_id ∧
        (truthyS exclude_file_id = true → f.id ≠ exclude_file_id.getD "")) := by
  constructor
  · have h1 : (check_name_conflicts st name data_room_id folder_id exclude_file_id
        exclude_folder_id).folderConflict
        = st.folders.any (folderConflictFilter name data_room_id folder_id
            exclude_folder_id) :=
      isSome_if_any st.folders _
    rw [h1, List.any_eq_true]
    exact exists_congr fun f => and_congr_right fun _ =>
      folderConflictFilter_eq_true name data_room_id folder_id exclude_folder_id f
  · have h2 : (check_name_conflicts st name data_room_id folder_id exclude_file_id
        exclude_folder_id).fileConflict
        = st.files.any (fileConflictFilter name data_room_id folder_id
            exclude_file_id) :=
      isSome_if_any st.files _
    rw [h2, List.any_eq_true]
    exact exists_congr fun f => and_congr_right fun _ =>
      fileConflictFilter_eq_true name data_room_id folder_id exclude_file_id f

/-- Witness for claim C5: the exact-match characterisation applied at the
concrete store reports the conflict for the identically-cased "Reports". -/
theorem conflict_check_exact_scope_witness :
    (check_name_conflicts reportsStore "Reports" "d" none none none).folderConflict
      = true :=
  (conflict_check_exact_scope reportsStore "Reports" "d" none none none).1.mpr
    (by decide)

/-- Claim C6 (counterexample): recreating "Budget" in the same scope is
translated by the global error handler into HTTP 409, but with the
handler's message, which appends ". Please choose a different name." to
the message the claim states. -/
theorem create_folder_duplicate_message_mismatch :
    create_folder budgetStore "u" "Budget" none "d" "f2" =
      .handled 409
        "A folder with this name already exists in this location. Please choose a different name." ∧
    "A folder with this name already exists in this location. Please choose a different name."
      ≠ "A folder with this name already exists in this location" := by
  exact ⟨by decide, by decide⟩

/-- Claim C6 (amended): a folder creation whose (data room, parent, name)
collides case-insensitively with an existing sibling — the collision is on
the computed `idx_folder_unique` key — yields HTTP 409 with the message
"A folder with this name already exists in this location. Please choose a
different name."; and every uniqueness-constraint violation naming
`idx_folder_unique` is translated by the error handler into that same
domain 409, never surfaced as a raw store error. -/
theorem create_folder_duplicate_conflict_409
    (st : Store) (u name : String) (parentId : Option String) (droom newId : String)
    (hname : 1 ≤ name.length ∧ name.length ≤ 100)
    (howner : st.data_rooms.any (fun dr => dr.id == droom && dr.user_id == u) = true)
    (hdup : st.folders.any (fun f =>
      folderUniqueKey f == folderUniqueKey ⟨newId, name, droom, parentId, u⟩) = true) :
    create_folder st u name parentId droom newId =
      .handled 409
        "A folder with this name already exists in this location. Please choose a different name." ∧
    (∀ e : String,
      containsSub (strLower e) "foreign key" = false →
      containsSub (strLower e) "violates foreign key constraint" = false →
      containsSub (strLower e) "unique" = true →
      containsSub e "uq_data_room_user_name" = false →
      containsSub e "idx_data_room_user_name" = false →
      containsSub e "idx_folder_unique" = true →
      error_handler_integrity e = (409,
        "A folder with this name already exists in this location. Please choose a different name.")) := by
  constructor
  · have hmsg : error_handler_integrity
        "duplicate key value violates unique constraint \"idx_folder_unique\"" =
        (409,
          "A folder with this name already exists in this location. Please choose a different name.") := by
      decide
    simp [create_folder, hname, howner, insertFolder, hdup, hmsg]
  · intro e h1 h2 h3 h4 h5 h6
    simp [error_handler_integrity, h1, h2, h3, h4, h5, h6]

/-- Witness for claim C6: creating "budget" beside the existing "Budget"
(the computed index keys agree after lowering) yields the 409 with the
handler's message. -/
theorem create_folder_duplicate_conflict_409_witness :
    create_folder budgetStore "u" "budget" none "d" "f2" =
      .handled 409
        "A folder with this name already exists in this location. Please choose a different name." :=
  (create_folder_duplicate_conflict_409 budgetStore "u" "budget" none "d" "f2"
    (by decide) (by decide) (by decide)).1

/-- Claim C10: the data-room delete endpoint unconditionally fails with 403
for every authenticated request, regardless of the store contents, the
target id or ownership, and it neither reads nor mutates the entity store
(its result does not depend on the store at all), so no data room can ever
be deleted through the API. -/
theorem delete_data_room_always_403 :
    (∀ st userId id, delete_data_room st userId id =
      .error (create_error
        "Cannot delete Data Room. Every user must have at least one Data Room." 403)) ∧
    (∀ st1 st2 userId id,
      delete_data_room st1 userId id = delete_data_room st2 userId id) :=
  ⟨fun _ _ _ => rfl, fun _ _ _ _ => rfl⟩

/-- Claim C1 (divergence witness): on a token whose signature fails under
both secrets, the auth pipeline performs its remote verification call
unconditionally — `auth_verify_phase` does not even take the rate-limiter
state as an input, mirroring the source, which never imports
`utils.rate_limiter` — even for a client whose fallback window is already
exhausted, where `check_fallback_rate_limit` would refuse.  The claimed
fail-fast 429 path does not exist in the code. -/
theorem sig_mismatch_always_calls_remote :
    (auth_verify_phase "https://x.supabase.co" (.bearer sigMismatchTok) 150
      none).remoteCalls = 1 ∧
    (auth_verify_phase "https://x.supabase.co" (.bearer sigMismatchTok) 150
      (some ⟨"uid-1", some "user@x.com", none⟩)).remoteCalls = 1 ∧
    ((check_fallback_rate_limit overLimitState "1.2.3.4" 150).1).1 = false :=
  ⟨rfl, rfl, by decide⟩

/-- Claim C2 (divergence witness): moving a folder into itself, and moving a
folder under its own child, are both accepted and committed by
`move_folder`, mutating the parent column and creating a cycle in the
parent relation — the route never checks for descendant cycles. -/
theorem move_folder_accepts_cycles :
    move_folder oneFolderStore "u" "a" (some "a") =
      .ok ⟨[⟨"d", "Room", "u"⟩], [⟨"a", "A", "d", some "a", "u"⟩], []⟩ ∧
    move_folder parentChildStore "u" "a" (some "b") =
      .ok ⟨[⟨"d", "Room", "u"⟩],
        [⟨"a", "A", "d", some "b", "u"⟩, ⟨"b", "B", "d", some "a", "u"⟩], []⟩ :=
  ⟨rfl, rfl⟩

/-- Helper for claim C7: on the two-row parent cycle, the breadcrumb loop is
still running whatever the fuel, whichever of the two rows it starts from
and whatever has been accumulated. -/
theorem breadcrumb_cycle_aux (n : Nat) :
    (∀ acc, build_breadcrumb_loop n cycStore (some cycRowA) acc = none) ∧
    (∀ acc, build_breadcrumb_loop n cycStore (some cycRowB) acc = none) := by
  induction n with
  | zero => exact ⟨fun _ => rfl, fun _ => rfl⟩
  | succ n ih =>
    refine ⟨fun acc => ?_, fun acc => ?_⟩
    · have hb : findFolder cycStore "b" = some cycRowB := rfl
      simp only [build_breadcrumb_loop, cycRowA, hb]
      exact ih.2 _
    · have ha : findFolder cycStore "a" = some cycRowA := rfl
      simp only [build_breadcrumb_loop, cycRowB, ha]
      exact ih.1 _

/-- Claim C7 (divergence witness): `build_breadcrumb` has no defensive depth
cap; on corrupt data containing a parent-reference cycle the walk never
terminates — for every iteration budget the loop is still running. -/
theorem build_breadcrumb_never_terminates_on_cycle :
    ∀ fuel, build_breadcrumb cycStore "a" fuel = none := by
  intro fuel
  have ha : findFolder cycStore "a" = some cycRowA := rfl
  simpa [build_breadcrumb, ha] using (breadcrumb_cycle_aux fuel).1 []

/-- Claim C8 (divergence witness): when the lazy user creation hits the
storage uniqueness backstop (another request already created the user), the
retry loop classifies the duplicate-key `IntegrityError` as non-retryable
and raises the 503 "Database connection error" — the read path is never
retried, even though a retried read (second environment) would have
resolved the winner's existing row, as the second conjunct shows. -/
theorem auth_duplicate_user_surfaces_503 :
    authenticate_db "sub-123" "user@x.com" none
        [dupKeyEnv, retryReadEnv, retryReadEnv] =
      .error (create_error "Database connection error. Please try again later." 503) ∧
    attemptBody "sub-123" "user@x.com" none retryReadEnv =
      .authed existingUserRow false :=
  ⟨rfl, rfl⟩

/-! ### Forest lemmas for the cascade-deletion claim -/

/-- Helper: filtering a list in which the predicate fails everywhere. -/
theorem filter_eq_nil_of_false {p : α → Bool} {l : List α}
    (h : ∀ x ∈ l, p x = false) : l.filter p = [] := by
  induction l with
  | nil => rfl
  | cons a t ih =>
    rw [List.filter_cons]
    simp only [h a (List.mem_cons_self a t)]
    exact ih fun x hx => h x (List.mem_cons_of_mem _ hx)

/-- Helper: filtering a list in which the predicate holds everywhere. -/
theorem filter_eq_self_of_true {p : α → Bool} {l : List α}
    (h : ∀ x ∈ l, p x = true) : l.filter p = l := by
  induction l with
  | nil => rfl
  | cons a t ih =>
    rw [List.filter_cons]
    simp only [h a (List.mem_cons_self a t), if_true]
    rw [ih fun x hx => h x (List.mem_cons_of_mem _ hx)]

/-- Unfolding of `forestIds` over `grow`. -/
theorem forestIds_grow (r : FolderRow) (fs : List FileRow)
    (children rest : FolderForest) :
    forestIds (.grow r fs children rest) =
      r.id :: (forestIds children ++ forestIds rest) := by
  simp [forestIds, forestFolderRows]

/-- Every folder row of a coherent forest either references the enclosing
parent or references some folder id inside the forest. -/
theorem forest_parents_in (F : FolderForest) :
    ∀ pid, forestCoherentB pid F = true →
      ∀ x ∈ forestFolderRows F, x.parent_folder_id = some pid ∨
        ∃ p ∈ forestIds F, x.parent_folder_id = some p := by
  induction F with
  | nil => intro pid _ x hx; simp [forestFolderRows] at hx
  | grow r fs children rest ihc ihr =>
    intro pid hcoh x hx
    simp only [forestCoherentB, Bool.and_eq_true, beq_iff_eq] at hcoh
    obtain ⟨⟨⟨hrpar, _⟩, hcohc⟩, hcohr⟩ := hcoh
    simp only [forestFolderRows, List.mem_cons, List.mem_append] at hx
    rcases hx with rfl | hx | hx
    · exact Or.inl hrpar
    · rcases ihc r.id hcohc x hx with h | ⟨p, hp, h⟩
      · exact Or.inr ⟨r.id, by rw [forestIds_grow]; exact List.mem_cons_self _ _, h⟩
      · exact Or.inr ⟨p,
          by rw [forestIds_grow];
             exact List.mem_cons_of_mem _ (List.mem_append_left _ hp), h⟩
    · rcases ihr pid hcohr x hx with h | ⟨p, hp, h⟩
      · exact Or.inl h
      · exact Or.inr ⟨p,
          by rw [forestIds_grow];
             exact List.mem_cons_of_mem _ (List.mem_append_right _ hp), h⟩

/-- Every file row of a coherent forest references some folder id inside the
forest. -/
theorem forest_files_in (F : FolderForest) :
    ∀ pid, forestCoherentB pid F = true →
      ∀ f ∈ forestFileRows F, ∃ p ∈ forestIds F, f.folder_id = some p := by
  induction F with
  | nil => intro pid _ f hf; simp [forestFileRows] at hf
  | grow r fs children rest ihc ihr =>
    intro pid hcoh f hf
    simp only [forestCoherentB, Bool.and_eq_true, beq_iff_eq,
      List.all_eq_true] at hcoh
    obtain ⟨⟨⟨_, hfs⟩, hcohc⟩, hcohr⟩ := hcoh
    simp only [forestFileRows, List.mem_append] at hf
    rcases hf with hf | hf | hf
    · exact ⟨r.id, by rw [forestIds_grow]; exact List.mem_cons_self _ _, hfs f hf⟩
    · obtain ⟨p, hp, h⟩ := ihc r.id hcohc f hf
      exact ⟨p,
        by rw [forestIds_grow];
           exact List.mem_cons_of_mem _ (List.mem_append_left _ hp), h⟩
    · obtain ⟨p, hp, h⟩ := ihr pid hcohr f hf
      exact ⟨p,
        by rw [forestIds_grow];
           exact List.mem_cons_of_mem _ (List.mem_append_right _ hp), h⟩

/-- In a coherent forest with fresh parent id and duplicate-free ids, the
rows whose parent is the enclosing parent are exactly the tree roots. -/
theorem forest_filter_roots (F : FolderForest) :
    ∀ pid, forestCoherentB pid F = true → (forestIds F).Nodup →
      pid ∉ forestIds F →
      (forestFolderRows F).filter (fun f => f.parent_folder_id == some pid) =
        forestRoots F := by
  induction F with
  | nil => intro pid _ _ _; rfl
  | grow r fs children rest ihc ihr =>
    intro pid hcoh hnd hpid
    simp only [forestCoherentB, Bool.and_eq_true, beq_iff_eq] at hcoh
    obtain ⟨⟨⟨hrpar, _⟩, hcohc⟩, hcohr⟩ := hcoh
    rw [forestIds_grow] at hnd hpid
    have hnd1 := List.nodup_cons.mp hnd
    have hnd2 := List.nodup_append.mp hnd1.2
    have hrc : r.id ∉ forestIds children :=
      fun h => hnd1.1 (List.mem_append_left _ h)
    have hpidne : pid ≠ r.id :=
      fun h => hpid (by rw [h]; exact List.mem_cons_self _ _)
    have hpidc : pid ∉ forestIds children :=
      fun h => hpid (List.mem_cons_of_mem _ (List.mem_append_left _ h))
    have hpidr : pid ∉ forestIds rest :=
      fun h => hpid (List.mem_cons_of_mem _ (List.mem_append_right _ h))
    simp only [forestFolderRows, forestRoots]
    rw [List.filter_cons]
    simp only [hrpar, beq_self_eq_true, if_true]
    rw [List.filter_append]
    have hcnil : (forestFolderRows children).filter
        (fun f => f.parent_folder_id == some pid) = [] := by
      apply filter_eq_nil_of_false
      intro x hx
      rcases forest_parents_in children r.id hcohc x hx with h | ⟨p, hp, h⟩
      · simp only [h, beq_eq_false_iff_ne, ne_eq, Option.some.injEq]
        exact fun hh => hpidne hh.symm
      · simp only [h, beq_eq_false_iff_ne, ne_eq, Option.some.injEq]
        exact fun hh => hpidc (hh ▸ hp)
    rw [hcnil, ihr pid hcohr hnd2.2.1 hpidr]
    rfl

/-- Central lemma for the cascade-deletion claim: running the child loop of
`delete_folder_recursive` over the roots of a coherent, duplicate-free
forest stored between unrelated rows `A`/`B` (folders) and `C`/`D` (files)
removes exactly the forest's rows and schedules exactly the forest's
depth-first blob-delete calls, recording the failed ones. -/
theorem delete_forest_spec (blobOk : String → Bool) (drs : List DataRoomRow) :
    ∀ (F : FolderForest) (pid : String) (A B : List FolderRow)
      (C D : List FileRow) (fuel : Nat),
      (forestIds F).Nodup →
      forestCoherentB pid F = true →
      pid ∉ forestIds F →
      (∀ row ∈ A, row.id ∉ forestIds F ∧
        ∀ tid ∈ forestIds F, row.parent_folder_id ≠ some tid) →
      (∀ row ∈ B, row.id ∉ forestIds F ∧
        ∀ tid ∈ forestIds F, row.parent_folder_id ≠ some tid) →
      (∀ fl ∈ C, ∀ tid ∈ forestIds F, fl.folder_id ≠ some tid) →
      (∀ fl ∈ D, ∀ tid ∈ forestIds F, fl.folder_id ≠ some tid) →
      forestHeight F ≤ fuel →
      runChildren (delete_folder_recursive blobOk fuel)
          ⟨drs, A ++ forestFolderRows F ++ B, C ++ forestFileRows F ++ D⟩
          (forestRoots F) =
        ⟨⟨drs, A ++ B, C ++ D⟩, forestPostPaths F,
          (forestPostPaths F).filter (fun p => !(blobOk p))⟩ := by
  intro F
  induction F with
  | nil =>
    intro pid A B C D fuel _ _ _ _ _ _ _ _
    simp [runChildren, forestRoots, forestFolderRows, forestFileRows,
      forestPostPaths]
  | grow r fs children rest ihc ihr =>
    intro pid A B C D fuel hnd hcoh hpid hA hB hC hD hfuel
    simp only [forestCoherentB, Bool.and_eq_true, beq_iff_eq,
      List.all_eq_true] at hcoh
    obtain ⟨⟨⟨hrpar, hfs⟩, hcohc⟩, hcohr⟩ := hcoh
    rw [forestIds_grow] at hnd hpid hA hB hC hD
    have hnd1 := List.nodup_cons.mp hnd
    have hnd2 := List.nodup_append.mp hnd1.2
    have hrc : r.id ∉ forestIds children :=
      fun h => hnd1.1 (List.mem_append_left _ h)
    have hrr : r.id ∉ forestIds rest :=
      fun h => hnd1.1 (List.mem_append_right _ h)
    have hpidne : pid ≠ r.id :=
      fun h => hpid (by rw [h]; exact List.mem_cons_self _ _)
    have hpidc : pid ∉ forestIds children :=
      fun h => hpid (List.mem_cons_of_mem _ (List.mem_append_left _ h))
    have hpidr : pid ∉ forestIds rest :=
      fun h => hpid (List.mem_cons_of_mem _ (List.mem_append_right _ h))
    have hidsub_c : ∀ tid ∈ forestIds children,
        tid ∈ r.id :: (forestIds children ++ forestIds rest) :=
      fun tid h => List.mem_cons_of_mem _ (List.mem_append_left _ h)
    have hidsub_r : ∀ tid ∈ forestIds rest,
        tid ∈ r.id :: (forestIds children ++ forestIds rest) :=
      fun tid h => List.mem_cons_of_mem _ (List.mem_append_right _ h)
    simp only [forestHeight] at hfuel
    have hfc : forestHeight children + 1 ≤ fuel :=
      le_trans (le_max_left _ _) hfuel
    have hfr : forestHeight rest ≤ fuel :=
      le_trans (le_max_right _ _) hfuel
    cases fuel with
    | zero => omega
    | succ fuel' =>
    have hfc' : forestHeight children ≤ fuel' := by omega
    -- hypotheses for the child forest, stored as (A ++ [r]) / (rest ++ B)
    have hA_c : ∀ row ∈ A ++ [r], row.id ∉ forestIds children ∧
        ∀ tid ∈ forestIds children, row.parent_folder_id ≠ some tid := by
      intro row hrow
      rcases List.mem_append.mp hrow with hrow | hrow
      · exact ⟨fun h => (hA row hrow).1 (hidsub_c _ h),
          fun tid htid => (hA row hrow).2 tid (hidsub_c _ htid)⟩
      · have hre : row = r := by simpa using hrow
        subst hre
        refine ⟨hrc, fun tid htid heq => ?_⟩
        rw [hrpar] at heq
        injection heq with hh
        subst hh
        exact hpidc htid
    have hB_c : ∀ row ∈ forestFolderRows rest ++ B,
        row.id ∉ forestIds children ∧
        ∀ tid ∈ forestIds children, row.parent_folder_id ≠ some tid := by
      intro row hrow
      rcases List.mem_append.mp hrow with hrow | hrow
      · constructor
        · intro h
          exact hnd2.2.2 h (List.mem_map_of_mem _ hrow)
        · intro tid htid heq
          rcases forest_parents_in rest pid hcohr row hrow with h | ⟨p, hp, h⟩
          · rw [h] at heq
            injection heq with hh
            subst hh
            exact hpidc htid
          · rw [h] at heq
            injection heq with hh
            subst hh
            exact hnd2.2.2 htid hp
      · exact ⟨fun h => (hB row hrow).1 (hidsub_c _ h),
          fun tid htid => (hB row hrow).2 tid (hidsub_c _ htid)⟩
    have hC_c : ∀ fl ∈ C ++ fs,
        ∀ tid ∈ forestIds children, fl.folder_id ≠ some tid := by
      intro fl hfl tid htid
      rcases List.mem_append.mp hfl with hfl | hfl
      · exact hC fl hfl tid (hidsub_c _ htid)
      · intro heq
        rw [hfs fl hfl] at heq
        injection heq with hh
        subst hh
        exact hrc htid
    have hD_c : ∀ fl ∈ forestFileRows rest ++ D,
        ∀ tid ∈ forestIds children, fl.folder_id ≠ some tid := by
      intro fl hfl tid htid
      rcases List.mem_append.mp hfl with hfl | hfl
      · obtain ⟨p, hp, h⟩ := forest_files_in rest pid hcohr fl hfl
        intro heq
        rw [h] at heq
        injection heq with hh
        subst hh
        exact hnd2.2.2 htid hp
      · exact hD fl hfl tid (hidsub_c _ htid)
    -- hypotheses for the sibling forest, stored as A / B again
    have hA_r : ∀ row ∈ A, row.id ∉ forestIds rest ∧
        ∀ tid ∈ forestIds rest, row.parent_folder_id ≠ some tid :=
      fun row hrow => ⟨fun h => (hA row hrow).1 (hidsub_r _ h),
        fun tid htid => (hA row hrow).2 tid (hidsub_r _ htid)⟩
    have hB_r : ∀ row ∈ B, row.id ∉ forestIds rest ∧
        ∀ tid ∈ forestIds rest, row.parent_folder_id ≠ some tid :=
      fun row hrow => ⟨fun h => (hB row hrow).1 (hidsub_r _ h),
        fun tid htid => (hB row hrow).2 tid (hidsub_r _ htid)⟩
    have hC_r : ∀ fl ∈ C, ∀ tid ∈ forestIds rest, fl.folder_id ≠ some tid :=
      fun fl hfl tid htid => hC fl hfl tid (hidsub_r _ htid)
    have hD_r : ∀ fl ∈ D, ∀ tid ∈ forestIds rest, fl.folder_id ≠ some tid :=
      fun fl hfl tid htid => hD fl hfl tid (hidsub_r _ htid)
    -- the children query of the head call
    have hchild : childRows
        ⟨drs, (A ++ [r]) ++ forestFolderRows children ++
            (forestFolderRows rest ++ B),
          (C ++ fs) ++ forestFileRows children ++ (forestFileRows rest ++ D)⟩
        r.id = forestRoots children := by
      show (((A ++ [r]) ++ forestFolderRows children ++
          (forestFolderRows rest ++ B)).filter
            (fun f => f.parent_folder_id == some r.id)) = forestRoots children
      rw [List.filter_append, List.filter_append, List.filter_append,
        List.filter_append]
      have h1 : A.filter (fun f => f.parent_folder_id == some r.id) = [] :=
        filter_eq_nil_of_false fun x hx => by
          simp only [beq_eq_false_iff_ne, ne_eq]
          exact (hA x hx).2 r.id (List.mem_cons_self _ _)
      have h2 : [r].filter (fun f => f.parent_folder_id == some r.id) = [] :=
        filter_eq_nil_of_false fun x hx => by
          have hx' : x = r := by simpa using hx
          subst hx'
          simp only [hrpar, beq_eq_false_iff_ne, ne_eq, Option.some.injEq]
          exact fun hh => hpidne hh
      have h3 : (forestFolderRows children).filter
          (fun f => f.parent_folder_id == some r.id) = forestRoots children :=
        forest_filter_roots children r.id hcohc hnd2.1 hrc
      have h4 : (forestFolderRows rest).filter
          (fun f => f.parent_folder_id == some r.id) = [] :=
        filter_eq_nil_of_false fun x hx => by
          rcases forest_parents_in rest pid hcohr x hx with h | ⟨p, hp, h⟩
          · simp only [h, beq_eq_false_iff_ne, ne_eq, Option.some.injEq]
            exact fun hh => hpidne hh
          · simp only [h, beq_eq_false_iff_ne, ne_eq, Option.some.injEq]
            exact fun hh => hrr (hh ▸ hp)
      have h5 : B.filter (fun f => f.parent_folder_id == some r.id) = [] :=
        filter_eq_nil_of_false fun x hx => by
          simp only [beq_eq_false_iff_ne, ne_eq]
          exact (hB x hx).2 r.id (List.mem_cons_self _ _)
      rw [h1, h2, h3, h4, h5]
      simp
    -- the three filters of the head call after its children are gone
    have hfilesSel : (((C ++ fs) ++ (forestFileRows rest ++ D)).filter
        (fun f => f.folder_id == some r.id)) = fs := by
      rw [List.filter_append, List.filter_append, List.filter_append]
      have h1 : C.filter (fun f => f.folder_id == some r.id) = [] :=
        filter_eq_nil_of_false fun x hx => by
          simp only [beq_eq_false_iff_ne, ne_eq]
          exact hC x hx r.id (List.mem_cons_self _ _)
      have h2 : fs.filter (fun f => f.folder_id == some r.id) = fs :=
        filter_eq_self_of_true fun x hx => by
          simp only [hfs x hx, beq_self_eq_true]
      have h3 : (forestFileRows rest).filter
          (fun f => f.folder_id == some r.id) = [] :=
        filter_eq_nil_of_false fun x hx => by
          obtain ⟨p, hp, h⟩ := forest_files_in rest pid hcohr x hx
          simp only [h, beq_eq_false_iff_ne, ne_eq, Option.some.injEq]
          exact fun hh => hrr (hh ▸ hp)
      have h4 : D.filter (fun f => f.folder_id == some r.id) = [] :=
        filter_eq_nil_of_false fun x hx => by
          simp only [beq_eq_false_iff_ne, ne_eq]
          exact hD x hx r.id (List.mem_cons_self _ _)
      rw [h1, h2, h3, h4]
      simp
    have hfoldersKeep : (((A ++ [r]) ++ (forestFolderRows rest ++ B)).filter
        (fun f => !(f.id == r.id))) = A ++ (forestFolderRows rest ++ B) := by
      rw [List.filter_append, List.filter_append, List.filter_append]
      have h1 : A.filter (fun f => !(f.id == r.id)) = A :=
        filter_eq_self_of_true fun x hx => by
          simp only [Bool.not_eq_true', beq_eq_false_iff_ne, ne_eq]
          exact fun hh => (hA x hx).1 (hh ▸ List.mem_cons_self _ _)
      have h2 : [r].filter (fun f => !(f.id == r.id)) = [] := by
        simp
      have h3 : (forestFolderRows rest).filter (fun f => !(f.id == r.id)) =
          forestFolderRows rest :=
        filter_eq_self_of_true fun x hx => by
          simp only [Bool.not_eq_true', beq_eq_false_iff_ne, ne_eq]
          exact fun hh => hrr (hh ▸ List.mem_map_of_mem _ hx)
      have h4 : B.filter (fun f => !(f.id == r.id)) = B :=
        filter_eq_self_of_true fun x hx => by
          simp only [Bool.not_eq_true', beq_eq_false_iff_ne, ne_eq]
          exact fun hh => (hB x hx).1 (hh ▸ List.mem_cons_self _ _)
      rw [h1, h2, h3, h4]
      simp
    have hfilesKeep : (((C ++ fs) ++ (forestFileRows rest ++ D)).filter
        (fun f => !(f.folder_id == some r.id))) = C ++ (forestFileRows rest ++ D) := by
      rw [List.filter_append, List.filter_append, List.filter_append]
      have h1 : C.filter (fun f => !(f.folder_id == some r.id)) = C :=
        filter_eq_self_of_true fun x hx => by
          simp only [Bool.not_eq_true', beq_eq_false_iff_ne, ne_eq]
          exact hC x hx r.id (List.mem_cons_self _ _)
      have h2 : fs.filter (fun f => !(f.folder_id == some r.id)) = [] :=
        filter_eq_nil_of_false fun x hx => by
          simp only [hfs x hx, beq_self_eq_true, Bool.not_true]
      have h3 : (forestFileRows rest).filter
          (fun f => !(f.folder_id == some r.id)) = forestFileRows rest :=
        filter_eq_self_of_true fun x hx => by
          obtain ⟨p, hp, h⟩ := forest_files_in rest pid hcohr x hx
          simp only [h, Bool.not_eq_true', beq_eq_false_iff_ne, ne_eq,
            Option.some.injEq]
          exact fun hh => hrr (hh ▸ hp)
      have h4 : D.filter (fun f => !(f.folder_id == some r.id)) = D :=
        filter_eq_self_of_true fun x hx => by
          simp only [Bool.not_eq_true', beq_eq_false_iff_ne, ne_eq]
          exact hD x hx r.id (List.mem_cons_self _ _)
      rw [h1, h2, h3, h4]
      simp
    -- evaluate the head call
    have hhead : delete_folder_recursive blobOk (fuel' + 1)
        ⟨drs, (A ++ [r]) ++ forestFolderRows children ++
            (forestFolderRows rest ++ B),
          (C ++ fs) ++ forestFileRows children ++ (forestFileRows rest ++ D)⟩
        r.id =
        ⟨⟨drs, A ++ (forestFolderRows rest ++ B), C ++ (forestFileRows rest ++ D)⟩,
          forestPostPaths children ++ filePaths fs,
          (forestPostPaths children).filter (fun p => !(blobOk p)) ++
            (filePaths fs).filter (fun p => !(blobOk p))⟩ := by
      simp only [delete_folder_recursive]
      rw [hchild]
      rw [ihc r.id (A ++ [r]) (forestFolderRows rest ++ B) (C ++ fs)
        (forestFileRows rest ++ D) fuel' hnd2.1 hcohc hrc hA_c hB_c hC_c hD_c hfc']
      dsimp only
      rw [hfilesSel, hfoldersKeep, hfilesKeep]
    -- assemble
    simp only [forestFolderRows, forestFileRows, forestRoots]
    have hstore : (⟨drs,
        A ++ (r :: (forestFolderRows children ++ forestFolderRows rest)) ++ B,
        C ++ (fs ++ (forestFileRows children ++ forestFileRows rest)) ++ D⟩ : Store) =
        ⟨drs, (A ++ [r]) ++ forestFolderRows children ++
            (forestFolderRows rest ++ B),
          (C ++ fs) ++ forestFileRows children ++ (forestFileRows rest ++ D)⟩ := by
      simp [List.append_assoc]
    rw [hstore]
    simp only [runChildren]
    rw [hhead]
    dsimp only
    have hstore2 : (⟨drs, A ++ (forestFolderRows rest ++ B),
        C ++ (forestFileRows rest ++ D)⟩ : Store) =
        ⟨drs, A ++ forestFolderRows rest ++ B, C ++ forestFileRows rest ++ D⟩ := by
      simp [List.append_assoc]
    rw [hstore2]
    rw [ihr pid A B C D (fuel' + 1) hnd2.2.1 hcohr hpidr hA_r hB_r hC_r hD_r hfr]
    simp [forestPostPaths, List.filter_append]

/-- Helper: the child loop's store and scheduled calls agree for two
recursive calls that agree on stores and calls. -/
theorem runChildren_agree (go1 go2 : Store → String → DeleteEffects)
    (h : ∀ st id, (go1 st id).store = (go2 st id).store ∧
      (go1 st id).blob_calls = (go2 st id).blob_calls) :
    ∀ (l : List FolderRow) (st : Store),
      (runChildren go1 st l).store = (runChildren go2 st l).store ∧
      (runChildren go1 st l).blob_calls = (runChildren go2 st l).blob_calls := by
  intro l
  induction l with
  | nil => intro st; exact ⟨rfl, rfl⟩
  | cons c cs ih =>
    intro st
    simp only [runChildren]
    obtain ⟨hs, hc⟩ := h st c.id
    constructor
    · rw [hs]
      exact (ih _).1
    · rw [hs, hc, (ih _).2]

/-- Helper: the database effect of `delete_folder_recursive` (the resulting
store) and the set of scheduled blob-delete calls do not depend on which
blob deletions succeed — a storage failure is caught and logged, never
aborting the database deletion. -/
theorem delete_recursive_blob_independent :
    ∀ (b1 b2 : String → Bool) (fuel : Nat) (st : Store) (fid : String),
      (delete_folder_recursive b1 fuel st fid).store =
        (delete_folder_recursive b2 fuel st fid).store ∧
      (delete_folder_recursive b1 fuel st fid).blob_calls =
        (delete_folder_recursive b2 fuel st fid).blob_calls := by
  intro b1 b2 fuel
  induction fuel with
  | zero => intro st fid; exact ⟨rfl, rfl⟩
  | succ n ih =>
    intro st fid
    simp only [delete_folder_recursive]
    obtain ⟨hs, hc⟩ := runChildren_agree (delete_folder_recursive b1 n)
      (delete_folder_recursive b2 n) (fun st id => ih st id) (childRows st fid) st
    constructor
    · rw [hs]
    · rw [hs, hc]

/-- Claim C3 (amended): deleting a folder removes the entire subtree,
depth-first.  For any coherent, duplicate-free subtree — root row `r`, its
direct files `fs`, child forest `children` — stored among unrelated rows
`A`/`B`/`C`/`D`, and fuel at least the nesting depth:
(1) the recursive deletion leaves zero rows of the subtree (folders of the
store become `A ++ B`, files `C ++ D`), and schedules blob-delete calls in
depth-first order — children of children first, then each folder's own
files — with exactly one call per deleted file that has a stored path
(files with a NULL `file_path` get none), recording exactly the failed
calls; (2) the resulting store and the scheduled calls are independent of
which blob deletions fail, so a blob failure never aborts the database
deletion; (3) the route commits atomically: it either rejects with 404 and
performs no deletion, or publishes the fully-deleted store in one step. -/
theorem delete_folder_cascade_spec :
    (∀ (blobOk : String → Bool) (drs : List DataRoomRow) (r : FolderRow)
        (fs : List FileRow) (children : FolderForest)
        (A B : List FolderRow) (C D : List FileRow) (fuel : Nat),
      (r.id :: forestIds children).Nodup →
      (∀ f ∈ fs, f.folder_id = some r.id) →
      forestCoherentB r.id children = true →
      (∀ tid ∈ r.id :: forestIds children, r.parent_folder_id ≠ some tid) →
      (∀ row ∈ A, row.id ∉ r.id :: forestIds children ∧
        ∀ tid ∈ r.id :: forestIds children, row.parent_folder_id ≠ some tid) →
      (∀ row ∈ B, row.id ∉ r.id :: forestIds children ∧
        ∀ tid ∈ r.id :: forestIds children, row.parent_folder_id ≠ some tid) →
      (∀ fl ∈ C, ∀ tid ∈ r.id :: forestIds children, fl.folder_id ≠ some tid) →
      (∀ fl ∈ D, ∀ tid ∈ r.id :: forestIds children, fl.folder_id ≠ some tid) →
      forestHeight children + 1 ≤ fuel →
      delete_folder_recursive blobOk fuel
          ⟨drs, A ++ (r :: forestFolderRows children) ++ B,
            C ++ (fs ++ forestFileRows children) ++ D⟩ r.id =
        ⟨⟨drs, A ++ B, C ++ D⟩,
          forestPostPaths children ++ filePaths fs,
          (forestPostPaths children ++ filePaths fs).filter
            (fun p => !(blobOk p))⟩) ∧
    (∀ (b1 b2 : String → Bool) (fuel : Nat) (st : Store) (fid : String),
      (delete_folder_recursive b1 fuel st fid).store =
        (delete_folder_recursive b2 fuel st fid).store ∧
      (delete_folder_recursive b1 fuel st fid).blob_calls =
        (delete_folder_recursive b2 fuel st fid).blob_calls) ∧
    (∀ (blobOk : String → Bool) (st : Store) (userId id : String) (fuel : Nat),
      (ownedFolder st userId id = none ∧
        delete_folder blobOk st userId id fuel =
          (.error (create_error "Folder not found" 404), [])) ∨
      ((∃ f, ownedFolder st userId id = some f) ∧
        delete_folder blobOk st userId id fuel =
          (.ok (delete_folder_recursive blobOk fuel st id).store,
            (delete_folder_recursive blobOk fuel st id).blob_calls))) := by
  refine ⟨?_, delete_recursive_blob_independent, ?_⟩
  · intro blobOk drs r fs children A B C D fuel hnd hfs hcohc hrpar hA hB hC hD hfuel
    have hnd1 := List.nodup_cons.mp hnd
    have hrc : r.id ∉ forestIds children := hnd1.1
    cases fuel with
    | zero => omega
    | succ fuel' =>
    have hfc' : forestHeight children ≤ fuel' := by omega
    have hidsub : ∀ tid ∈ forestIds children, tid ∈ r.id :: forestIds children :=
      fun tid h => List.mem_cons_of_mem _ h
    have hA_c : ∀ row ∈ A ++ [r], row.id ∉ forestIds children ∧
        ∀ tid ∈ forestIds children, row.parent_folder_id ≠ some tid := by
      intro row hrow
      rcases List.mem_append.mp hrow with hrow | hrow
      · exact ⟨fun h => (hA row hrow).1 (hidsub _ h),
          fun tid htid => (hA row hrow).2 tid (hidsub _ htid)⟩
      · have hre : row = r := by simpa using hrow
        subst hre
        exact ⟨hrc, fun tid htid => hrpar tid (hidsub _ htid)⟩
    have hB_c : ∀ row ∈ B, row.id ∉ forestIds children ∧
        ∀ tid ∈ forestIds children, row.parent_folder_id ≠ some tid :=
      fun row hrow => ⟨fun h => (hB row hrow).1 (hidsub _ h),
        fun tid htid => (hB row hrow).2 tid (hidsub _ htid)⟩
    have hC_c : ∀ fl ∈ C ++ fs,
        ∀ tid ∈ forestIds children, fl.folder_id ≠ some tid := by
      intro fl hfl tid htid
      rcases List.mem_append.mp hfl with hfl | hfl
      · exact hC fl hfl tid (hidsub _ htid)
      · intro heq
        rw [hfs fl hfl] at heq
        injection heq with hh
        subst hh
        exact hrc htid
    have hD_c : ∀ fl ∈ D, ∀ tid ∈ forestIds children, fl.folder_id ≠ some tid :=
      fun fl hfl tid htid => hD fl hfl tid (hidsub _ htid)
    have hchild : childRows
        ⟨drs, (A ++ [r]) ++ forestFolderRows children ++ B,
          (C ++ fs) ++ forestFileRows children ++ D⟩ r.id =
        forestRoots children := by
      show (((A ++ [r]) ++ forestFolderRows children ++ B).filter
          (fun f => f.parent_folder_id == some r.id)) = forestRoots children
      rw [List.filter_append, List.filter_append, List.filter_append]
      have h1 : A.filter (fun f => f.parent_folder_id == some r.id) = [] :=
        filter_eq_nil_of_false fun x hx => by
          simp only [beq_eq_false_iff_ne, ne_eq]
          exact (hA x hx).2 r.id (List.mem_cons_self _ _)
      have h2 : [r].filter (fun f => f.parent_folder_id == some r.id) = [] :=
        filter_eq_nil_of_false fun x hx => by
          have hx' : x = r := by simpa using hx
          rw [hx']
          simp only [beq_eq_false_iff_ne, ne_eq]
          exact hrpar r.id (List.mem_cons_self _ _)
      have h3 : (forestFolderRows children).filter
          (fun f => f.parent_folder_id == some r.id) = forestRoots children :=
        forest_filter_roots children r.id hcohc hnd1.2 hrc
      have h4 : B.filter (fun f => f.parent_folder_id == some r.id) = [] :=
        filter_eq_nil_of_false fun x hx => by
          simp only [beq_eq_false_iff_ne, ne_eq]
          exact (hB x hx).2 r.id (List.mem_cons_self _ _)
      rw [h1, h2, h3, h4]
      simp
    have hsub := delete_forest_spec blobOk drs children r.id (A ++ [r]) B
      (C ++ fs) D fuel' hnd1.2 hcohc hrc hA_c hB_c hC_c hD_c hfc'
    have hfilesSel : (((C ++ fs) ++ D).filter
        (fun f => f.folder_id == some r.id)) = fs := by
      rw [List.filter_append, List.filter_append]
      have h1 : C.filter (fun f => f.folder_id == some r.id) = [] :=
        filter_eq_nil_of_false fun x hx => by
          simp only [beq_eq_false_iff_ne, ne_eq]
          exact hC x hx r.id (List.mem_cons_self _ _)
      have h2 : fs.filter (fun f => f.folder_id == some r.id) = fs :=
        filter_eq_self_of_true fun x hx => by
          simp only [hfs x hx, beq_self_eq_true]
      have h3 : D.filter (fun f => f.folder_id == some r.id) = [] :=
        filter_eq_nil_of_false fun x hx => by
          simp only [beq_eq_false_iff_ne, ne_eq]
          exact hD x hx r.id (List.mem_cons_self _ _)
      rw [h1, h2, h3]
      simp
    have hfoldersKeep : (((A ++ [r]) ++ B).filter (fun f => !(f.id == r.id))) =
        A ++ B := by
      rw [List.filter_append, List.filter_append]
      have h1 : A.filter (fun f => !(f.id == r.id)) = A :=
        filter_eq_self_of_true fun x hx => by
          simp only [Bool.not_eq_true', beq_eq_false_iff_ne, ne_eq]
          exact fun hh => (hA x hx).1 (hh ▸ List.mem_cons_self _ _)
      have h2 : [r].filter (fun f => !(f.id == r.id)) = [] := by simp
      have h3 : B.filter (fun f => !(f.id == r.id)) = B :=
        filter_eq_self_of_true fun x hx => by
          simp only [Bool.not_eq_true', beq_eq_false_iff_ne, ne_eq]
          exact fun hh => (hB x hx).1 (hh ▸ List.mem_cons_self _ _)
      rw [h1, h2, h3]
      simp
    have hfilesKeep : (((C ++ fs) ++ D).filter
        (fun f => !(f.folder_id == some r.id))) = C ++ D := by
      rw [List.filter_append, List.filter_append]
      have h1 : C.filter (fun f => !(f.folder_id == some r.id)) = C :=
        filter_eq_self_of_true fun x hx => by
          simp only [Bool.not_eq_true', beq_eq_false_iff_ne, ne_eq]
          exact hC x hx r.id (List.mem_cons_self _ _)
      have h2 : fs.filter (fun f => !(f.folder_id == some r.id)) = [] :=
        filter_eq_nil_of_false fun x hx => by
          simp only [hfs x hx, beq_self_eq_true, Bool.not_true]
      have h3 : D.filter (fun f => !(f.folder_id == some r.id)) = D :=
        filter_eq_self_of_true fun x hx => by
          simp only [Bool.not_eq_true', beq_eq_false_iff_ne, ne_eq]
          exact hD x hx r.id (List.mem_cons_self _ _)
      rw [h1, h2, h3]
      simp
    have hstore : (⟨drs, A ++ (r :: forestFolderRows children) ++ B,
        C ++ (fs ++ forestFileRows children) ++ D⟩ : Store) =
        ⟨drs, (A ++ [r]) ++ forestFolderRows children ++ B,
          (C ++ fs) ++ forestFileRows children ++ D⟩ := by
      simp [List.append_assoc]
    rw [hstore]
    simp only [delete_folder_recursive]
    rw [hchild, hsub]
    dsimp only
    rw [hfilesSel, hfoldersKeep, hfilesKeep]
    simp [List.filter_append]
  · intro blobOk st userId id fuel
    cases h : ownedFolder st userId id with
    | none => exact Or.inl ⟨rfl, by simp [delete_folder, h]⟩
    | some f => exact Or.inr ⟨⟨f, rfl⟩, by simp [delete_folder, h]⟩

/-- Claim C3 (counterexample): deleting folder "a", which directly contains
M = 1 file whose `file_path` is NULL, issues zero blob-delete calls rather
than M — the source only schedules a blob delete under `if file.file_path:`
— while the database rows are still fully removed. -/
theorem delete_folder_skips_pathless_blobs :
    (delete_folder_recursive (fun _ => true) 1 noPathStore "a").blob_calls = [] ∧
    (noPathStore.files.filter (fun f => f.folder_id == some "a")).length = 1 ∧
    (delete_folder_recursive (fun _ => true) 1 noPathStore "a").store.files = [] ∧
    (delete_folder_recursive (fun _ => true) 1 noPathStore "a").store.folders = [] :=
  ⟨rfl, rfl, rfl, rfl⟩

/-- Witness for claim C3 at a concrete two-level subtree (root "a" with one
stored-path file, child "b" with one stored-path file and one NULL-path
file) surrounded by one unrelated folder and file. -/
theorem delete_folder_cascade_spec_witness :
    delete_folder_recursive (fun _ => true) 2
        ⟨[⟨"d", "Room", "u"⟩],
          [] ++ (demoRoot :: forestFolderRows demoChildren) ++
            [⟨"q", "Other", "d", none, "u"⟩],
          [] ++ (demoFiles ++ forestFileRows demoChildren) ++
            [⟨"w", "other.txt", "d", some "q", "u", some "uploads/q/other.txt"⟩]⟩
        demoRoot.id =
      ⟨⟨[⟨"d", "Room", "u"⟩], [] ++ [⟨"q", "Other", "d", none, "u"⟩],
          [] ++ [⟨"w", "other.txt", "d", some "q", "u", some "uploads/q/other.txt"⟩]⟩,
        forestPostPaths demoChildren ++ filePaths demoFiles,
        (forestPostPaths demoChildren ++ filePaths demoFiles).filter
          (fun p => !((fun _ => true) p))⟩ :=
  delete_folder_cascade_spec.1 (fun _ => true) [⟨"d", "Room", "u"⟩] demoRoot
    demoFiles demoChildren [] [⟨"q", "Other", "d", none, "u"⟩] []
    [⟨"w", "other.txt", "d", some "q", "u", some "uploads/q/other.txt"⟩] 2
    (by decide) (by decide) (by decide) (by decide) (by decide) (by decide)
    (by decide) (by decide) (by decide)

end DataRoom
